import Mathlib

/-!
Verification of the SRI electronic-invoicing engine (Loyverse → SRI Ecuador).

The definitions below are a shallow embedding of the JavaScript sources:
the access-key generator (xml-generator), the invoice XML builder, the
XML signer (xml-signer) and the SOAP client module (sri-services).
JS strings are embedded as `String` or `List Char`, JS numbers used for
money as `Rat`, thrown exceptions as `Except`, object mutation as explicit
state passing, and nondeterministic inputs (random numeric code, system
clock, SOAP responses, filesystem timestamps) as explicit parameters.
-/

/-- Left-pad a character list to length `n` with `c` (JS `padStart`). -/
def padIzq (n : Nat) (c : Char) (s : List Char) : List Char :=
  List.replicate (n - s.length) c ++ s

/-- Two wall-clock digits, as `moment.format("DD")` / `("MM")` produce. -/
def pad2 (n : Nat) : List Char := padIzq 2 '0' (toString n).data

/-- Four wall-clock digits, as `moment.format("YYYY")` produces. -/
def pad4 (n : Nat) : List Char := padIzq 4 '0' (toString n).data

/-- Substring containment test (JS `String.prototype.includes`). -/
def listaContiene (s sub : List Char) : Bool :=
  match s with
  | [] => sub.isEmpty
  | _ :: resto => sub.isPrefixOf s || listaContiene resto sub

/-- String-level substring containment. -/
def contiene (s sub : String) : Bool := listaContiene s.data sub.data

/-- Lower-case a string (JS `toLowerCase`, restricted to the ASCII range used). -/
def aMinusculas (s : String) : String := String.mk (s.data.map Char.toLower)

/-- Strip whitespace from both ends (JS `String.prototype.trim`). -/
def recortar (s : String) : String :=
  String.mk (((s.data.dropWhile Char.isWhitespace).reverse.dropWhile Char.isWhitespace).reverse)

/-- Join a list of strings with a separator (JS `Array.prototype.join`). -/
def unirCon (sep : String) : List String → String
  | [] => ""
  | [x] => x
  | x :: resto => x ++ sep ++ unirCon sep resto

/-- JS `Number.prototype.toFixed(2)` over exact rationals: round the
magnitude to the nearest centésimo (ties up) and print with exactly two
decimals.  `(200·|num| + den) / (2·den)` is `⌊100·|q| + 1/2⌋` in `Nat`
arithmetic. -/
def toFixed2 (q : Rat) : String :=
  let n : Nat := (200 * q.num.natAbs + q.den) / (2 * q.den)
  let parteEntera := n / 100
  let parteDecimal := n % 100
  (if q.num < 0 ∧ n ≠ 0 then "-" else "") ++ toString parteEntera ++ "." ++
    (if parteDecimal < 10 then "0" ++ toString parteDecimal else toString parteDecimal)

/-- A wall-clock reading in the UTC−05 (Ecuador) offset used throughout the
source: calendar date plus minutes elapsed in the day.  `moment` instants are
compared through this wall-clock because the source pins every moment to the
fixed offset `-05:00` before comparing or formatting. -/
structure Momento where
  anio : Nat
  mes : Nat
  dia : Nat
  minutosDia : Nat
deriving DecidableEq

/-- `a.isAfter b` for two moments pinned to the same UTC−05 offset. -/
def Momento.despuesDe (a b : Momento) : Bool :=
  if a.anio ≠ b.anio then a.anio > b.anio
  else if a.mes ≠ b.mes then a.mes > b.mes
  else if a.dia ≠ b.dia then a.dia > b.dia
  else a.minutosDia > b.minutosDia

/-- `moment(fecha).format("DDMMYYYY")`: the eight date digits that open a
clave de acceso. -/
def ddmmyyyy (m : Momento) : List Char := pad2 m.dia ++ pad2 m.mes ++ pad4 m.anio

/-- `moment(fecha).format("DD/MM/YYYY")`: the `infoFactura/fechaEmision` text. -/
def formatoFechaBarras (m : Momento) : String :=
  String.mk (pad2 m.dia ++ '/' :: pad2 m.mes ++ '/' :: pad4 m.anio)

/-- The hardcoded coefficient table of `generarClaveAcceso`
(xml-generator, `const coeficientes = [2, 3, 4, 5, 6, 7, 2, 3, ...]`). -/
def coeficientes : List Nat :=
  [2, 3, 4, 5, 6, 7, 2, 3, 4, 5, 6, 7, 2, 3, 4, 5, 6, 7, 2, 3, 4, 5, 6, 7,
   2, 3, 4, 5, 6, 7, 2, 3, 4, 5, 6, 7, 2, 3, 4, 5, 6, 7, 2, 3, 4, 5, 6, 7]

/-- The digit-times-coefficient accumulation loop of `generarClaveAcceso`
(`suma += digito * coeficientes[i]`). -/
def sumaPonderada (ds cs : List Nat) : Nat :=
  (ds.zip cs).foldl (fun acc par => acc + par.1 * par.2) 0

/-- The modulus-11 mapping of `generarClaveAcceso`:
`(11 - modulo) === 11 ? 0 : (11 - modulo) === 10 ? 1 : (11 - modulo)`. -/
def digitoDeSuma (suma : Nat) : Nat :=
  let modulo := suma % 11
  if 11 - modulo = 11 then 0 else if 11 - modulo = 10 then 1 else 11 - modulo

/-- Numeric value of an ASCII digit character (JS `parseInt` on one char). -/
def valorDigito (c : Char) : Nat := c.toNat - 48

/-- Parse every character of the clave base as a digit; the source throws
on the first `isNaN(digito)` position. -/
def digitosDe : List Char → Except String (List Nat)
  | [] => .ok []
  | c :: resto =>
    if c.isDigit then
      match digitosDe resto with
      | .ok ds => .ok (valorDigito c :: ds)
      | .error e => .error e
    else .error "La clave de acceso contiene caracteres no numéricos"

/-- Inputs of `generarClaveAcceso` (xml-generator).  The eight-digit random
`codigoNumerico` is passed separately as the injected source of
nondeterminism. -/
structure ParametrosClave where
  fechaEmision : Momento
  tipoComprobante : List Char
  ruc : List Char
  ambiente : List Char
  serie : List Char
  secuencial : List Char
  tipoEmision : List Char
deriving DecidableEq

/-- The 48-character clave base assembled by `generarClaveAcceso`:
date, doc type, RUC, environment, serie, 9-padded sequential, numeric
code, emission type. -/
def claveBaseDe (codigoNumerico : Nat) (p : ParametrosClave) : List Char :=
  ddmmyyyy p.fechaEmision ++ p.tipoComprobante ++ p.ruc ++ p.ambiente ++ p.serie ++
    padIzq 9 '0' p.secuencial ++ (toString codigoNumerico).data ++ p.tipoEmision

/-- `generarClaveAcceso` (xml-generator): build the clave base, check it has
48 characters, check the coefficient table has the same length, parse the
digits, append the modulus-11 check digit and check the result has 49
characters. -/
def generarClaveAcceso (cod : Nat) (p : ParametrosClave) : Except String (List Char) :=
  if (claveBaseDe cod p).length = 48 then
    if coeficientes.length = (claveBaseDe cod p).length then
      match digitosDe (claveBaseDe cod p) with
      | .error e => .error e
      | .ok ds =>
        if ((claveBaseDe cod p) ++
            (toString (digitoDeSuma (sumaPonderada ds coeficientes))).data).length = 49 then
          .ok ((claveBaseDe cod p) ++
            (toString (digitoDeSuma (sumaPonderada ds coeficientes))).data)
        else .error "La clave de acceso debe tener 49 dígitos"
    else .error "Los coeficientes deben tener la misma longitud que la clave base"
  else .error "La clave de acceso base debe tener 48 dígitos"

/-- The coefficient vector exactly as the specification words it: `[2,3,4,5,6,7]`
repeated cyclically over positions 0..47. -/
def coeficientesEspec : List Nat :=
  (List.range 48).map (fun i => [2, 3, 4, 5, 6, 7].getD (i % 6) 0)

/-- The weighted sum `S` of the specification. -/
def sumaEspec (ds : List Nat) : Nat := sumaPonderada ds coeficientesEspec

/-- The check digit exactly as the specification words it: `r = 11 - S mod 11`,
emit 0 when r = 11, 1 when r = 10, r otherwise. -/
def digitoEspec (ds : List Nat) : Nat :=
  let r := 11 - sumaEspec ds % 11
  if r = 11 then 0 else if r = 10 then 1 else r

/-- Modelled from the spec: `KeyBuilder.validate(key49) → bool`.  The source
ships no validate function (only its generator); the spec says a key is valid
when it has exactly 49 decimal digits and recomputing the modulus-11 check
digit over its first 48 digits yields its 49th digit. -/
def validate (k : List Char) : Bool :=
  k.length == 49 &&
  k.all Char.isDigit &&
  match digitosDe k with
  | .ok ds => digitoEspec (ds.take 48) == ds.getD 48 0
  | .error _ => false

/-- JS value held in an item impuesto's `tarifa` field: absent, a number,
or a string. -/
inductive ValorTarifa where
  | indefinida
  | numero (n : Rat)
  | cadena (s : String)
deriving DecidableEq

/-- JS truthiness of the `tarifa` field (`if (imp.tarifa)`): `undefined`,
`0` and `""` are falsy. -/
def esVerdadera : ValorTarifa → Bool
  | .indefinida => false
  | .numero n => n != 0
  | .cadena s => s != ""

/-- The `<tarifa>` text emitted per impuesto by `generarXmlFactura`: use the
supplied tarifa when truthy (numbers through `toFixed(2)`, strings as given),
otherwise derive it from `codigoPorcentaje` (2 → 12.00, 3 → 14.00,
8 → 15.00, default 0.00). -/
def tarifaIvaDe (tarifa : ValorTarifa) (codigoPorcentaje : String) : String :=
  if esVerdadera tarifa then
    match tarifa with
    | .numero n => toFixed2 n
    | .cadena s => s
    | .indefinida => "0.00"
  else if codigoPorcentaje == "2" then "12.00"
  else if codigoPorcentaje == "3" then "14.00"
  else if codigoPorcentaje == "8" then "15.00"
  else "0.00"

/-- Entity replacement of `sanitizarTextoXML`: `& < > " '` become entities. -/
def escaparCaracter (c : Char) : List Char :=
  if c = '&' then "&amp;".data
  else if c = '<' then "&lt;".data
  else if c = '>' then "&gt;".data
  else if c = '"' then "&quot;".data
  else if c = Char.ofNat 39 then "&apos;".data
  else [c]

/-- First removal pass of `sanitizarTextoXML`: drop C0 controls except
tab, LF, CR, and drop DEL. -/
def esControlProhibido (c : Char) : Bool :=
  let n := c.toNat
  n ≤ 8 || n == 11 || n == 12 || (14 ≤ n && n ≤ 31) || n == 127

/-- Second removal pass of `sanitizarTextoXML`: keep only characters legal
in XML 1.0 (tab, LF, CR, 0x20–0xD7FF, 0xE000–0xFFFD). -/
def esLegalXml (c : Char) : Bool :=
  let n := c.toNat
  n == 9 || n == 10 || n == 13 || (32 ≤ n && n ≤ 0xD7FF) || (0xE000 ≤ n && n ≤ 0xFFFD)

/-- `sanitizarTextoXML` (xml-generator): empty in, empty out; otherwise
entity-escape and strip the illegal characters. -/
def sanitizarTextoXML (texto : String) : String :=
  if texto = "" then ""
  else String.mk ((((texto.data.map escaparCaracter).flatten).filter
    (fun c => !esControlProhibido c)).filter esLegalXml)

/-- JS `a || b` for strings: `b` when `a` is empty. -/
def siVacia (s alterno : String) : String := if s = "" then alterno else s

/-- The hardcoded reference moment `moment("2025-08-07")` of
`generarXmlFactura`. -/
def fechaReferencia : Momento := { anio := 2025, mes := 8, dia := 7, minutosDia := 0 }

/-- `fechaReferencia.clone().add(1, "days")`. -/
def fechaReferenciaMasUnDia : Momento := { anio := 2025, mes := 8, dia := 8, minutosDia := 0 }

/-- Whether `generarXmlFactura` considers the system clock to be in the
future (strictly after the reference date plus one day). -/
def relojSistemaFuturo (ahora : Momento) : Bool :=
  ahora.despuesDe fechaReferenciaMasUnDia

/-- The "current date in Ecuador" that `generarXmlFactura` actually works
with: the system clock, except that when it falls after the reference date
plus one day its calendar day is overwritten with the reference date
2025-08-07 (time of day kept). -/
def ajustarFechaSistema (ahora : Momento) : Momento :=
  if relojSistemaFuturo ahora then
    { ahora with anio := 2025, mes := 8, dia := 7 }
  else ahora

/-- The emission-date resolution of `generarXmlFactura`: a supplied date
strictly after the (reference-adjusted) current Ecuador date is replaced by
that current date with a warning; an absent date defaults to it silently. -/
def resolverFechaEmision (ahora : Momento) (entrada : Option Momento) : Momento × Bool :=
  let fechaActualEcuador := ajustarFechaSistema ahora
  match entrada with
  | some fe =>
    if fe.despuesDe fechaActualEcuador then (fechaActualEcuador, true) else (fe, false)
  | none => (fechaActualEcuador, false)

/-- `ambiente` validation of `generarXmlFactura`: anything other than
`"1"`/`"2"` falls back to `"1"` with a warning. -/
def validarAmbiente (a : String) : String × Bool :=
  if a = "1" ∨ a = "2" then (a, false) else ("1", true)

/-- One impuesto of an invoice item. -/
structure Impuesto where
  codigo : String
  codigoPorcentaje : String
  tarifa : ValorTarifa
  baseImponible : Rat
  valor : Rat
deriving DecidableEq

/-- One invoice item. -/
structure ItemFactura where
  codigoPrincipal : String
  descripcion : String
  cantidad : Rat
  precioUnitario : Rat
  descuento : Rat
  impuestos : List Impuesto
deriving DecidableEq

/-- One payment entry. -/
structure Pago where
  formaPago : String
  total : Rat
deriving DecidableEq

/-- The buyer record `factura.cliente`. -/
structure Cliente where
  razonSocial : String
  identificacion : String
  tipoIdentificacion : String
  direccion : String
  email : String
  telefono : String
deriving DecidableEq

/-- The invoice record received by `generarXmlFactura`. -/
structure Factura where
  ambiente : String
  tipoEmision : String
  razonSocial : String
  nombreComercial : String
  ruc : String
  establecimiento : String
  puntoEmision : String
  secuencial : String
  fechaEmision : Option Momento
  direccionEstablecimiento : String
  dirMatriz : String
  cliente : Cliente
  items : List ItemFactura
  pagos : List Pago
  totalSinImpuestos : Rat
  totalDescuento : Rat
  propina : Rat
  importeTotal : Rat
  moneda : String
deriving DecidableEq

/-- The clave-acceso parameters `generarXmlFactura` passes to
`generarClaveAcceso` (document type fixed at 01, serie =
establecimiento ++ puntoEmision). -/
def parametrosClaveFactura (f : Factura) (fechaParaClave : Momento)
    (ambiente : String) : ParametrosClave :=
  { fechaEmision := fechaParaClave
    tipoComprobante := "01".data
    ruc := f.ruc.data
    ambiente := ambiente.data
    serie := (f.establecimiento ++ f.puntoEmision).data
    secuencial := f.secuencial.data
    tipoEmision := f.tipoEmision.data }

/-- The `dirEstablecimiento` fallback chain: the trimmed establishment
address, else the trimmed matrix address, else failure. -/
def direccionEstablecimientoEfectiva (f : Factura) : Option String :=
  if recortar f.direccionEstablecimiento ≠ "" then some (recortar f.direccionEstablecimiento)
  else if recortar f.dirMatriz ≠ "" then some (recortar f.dirMatriz)
  else none

/-- Tax aggregation of `generarXmlFactura`: group impuestos by
`codigo ++ "-" ++ codigoPorcentaje` in first-seen order, summing
`baseImponible` and `valor`. -/
def agregarImpuestoTotal (acc : List (String × Impuesto)) (imp : Impuesto) :
    List (String × Impuesto) :=
  let k := imp.codigo ++ "-" ++ imp.codigoPorcentaje
  if acc.any (fun p => p.1 == k) then
    acc.map (fun p =>
      if p.1 == k then
        (p.1, { p.2 with baseImponible := p.2.baseImponible + imp.baseImponible,
                         valor := p.2.valor + imp.valor })
      else p)
  else acc ++ [(k, imp)]

/-- All grouped impuesto totals of an invoice, in first-seen order. -/
def totalesImpuestos (f : Factura) : List (String × Impuesto) :=
  f.items.foldl (fun acc item => item.impuestos.foldl agregarImpuestoTotal acc) []

/-- `<totalImpuesto>` block. -/
def totalImpuestoXml (imp : Impuesto) : String :=
  "<totalImpuesto>\n" ++
  "<codigo>" ++ imp.codigo ++ "</codigo>\n" ++
  "<codigoPorcentaje>" ++ imp.codigoPorcentaje ++ "</codigoPorcentaje>\n" ++
  "<baseImponible>" ++ toFixed2 imp.baseImponible ++ "</baseImponible>\n" ++
  "<valor>" ++ toFixed2 imp.valor ++ "</valor>\n" ++
  "</totalImpuesto>\n"

/-- `<impuesto>` block of one detalle, using the tarifa resolution. -/
def impuestoDetalleXml (imp : Impuesto) : String :=
  "<impuesto>\n" ++
  "<codigo>" ++ imp.codigo ++ "</codigo>\n" ++
  "<codigoPorcentaje>" ++ imp.codigoPorcentaje ++ "</codigoPorcentaje>\n" ++
  "<tarifa>" ++ tarifaIvaDe imp.tarifa imp.codigoPorcentaje ++ "</tarifa>\n" ++
  "<baseImponible>" ++ toFixed2 imp.baseImponible ++ "</baseImponible>\n" ++
  "<valor>" ++ toFixed2 imp.valor ++ "</valor>\n" ++
  "</impuesto>\n"

/-- `<detalle>` block: `precioTotalSinImpuesto` is always rederived as
`cantidad * precioUnitario - descuento`. -/
def detalleXml (item : ItemFactura) : String :=
  "<detalle>\n" ++
  "<codigoPrincipal>" ++ sanitizarTextoXML (siVacia item.codigoPrincipal "SIN CODIGO") ++
    "</codigoPrincipal>\n" ++
  "<descripcion>" ++ sanitizarTextoXML item.descripcion ++ "</descripcion>\n" ++
  "<cantidad>" ++ toFixed2 item.cantidad ++ "</cantidad>\n" ++
  "<precioUnitario>" ++ toFixed2 item.precioUnitario ++ "</precioUnitario>\n" ++
  "<descuento>" ++ toFixed2 item.descuento ++ "</descuento>\n" ++
  "<precioTotalSinImpuesto>" ++
    toFixed2 (item.cantidad * item.precioUnitario - item.descuento) ++
    "</precioTotalSinImpuesto>\n" ++
  "<impuestos>\n" ++ unirCon "" (item.impuestos.map impuestoDetalleXml) ++ "</impuestos>\n" ++
  "</detalle>\n"

/-- `<pago>` block. -/
def pagoXml (p : Pago) : String :=
  "<pago>\n" ++
  "<formaPago>" ++ p.formaPago ++ "</formaPago>\n" ++
  "<total>" ++ toFixed2 p.total ++ "</total>\n" ++
  "</pago>\n"

/-- `<pagos>` block: when the invoice carries no payments, a default
`formaPago=01` payment over `importeTotal` is synthesized. -/
def pagosXml (f : Factura) : String :=
  "<pagos>\n" ++
  (if f.pagos.isEmpty then
    "<pago>\n<formaPago>01</formaPago>\n<total>" ++ toFixed2 f.importeTotal ++
      "</total>\n</pago>\n"
  else unirCon "" (f.pagos.map pagoXml)) ++
  "</pagos>\n"

/-- The full factura XML string assembled by `generarXmlFactura`
(part after clave generation), given the already-validated record, the
clave, the formatted emission date and the resolved establishment address. -/
def construirXmlFactura (f : Factura) (clave : List Char) (fechaEmisionTexto : String)
    (dirEst : String) : String :=
  let email := sanitizarTextoXML f.cliente.email
  let telefono := sanitizarTextoXML f.cliente.telefono
  "<?xml version=\"1.0\" encoding=\"UTF-8\"?>\n" ++
  "<factura id=\"comprobante\" version=\"1.1.0\">\n" ++
  "<infoTributaria>\n" ++
  "<ambiente>" ++ f.ambiente ++ "</ambiente>\n" ++
  "<tipoEmision>" ++ f.tipoEmision ++ "</tipoEmision>\n" ++
  "<razonSocial>" ++ sanitizarTextoXML f.razonSocial ++ "</razonSocial>\n" ++
  "<nombreComercial>" ++ sanitizarTextoXML f.nombreComercial ++ "</nombreComercial>\n" ++
  "<ruc>" ++ f.ruc ++ "</ruc>\n" ++
  "<claveAcceso>" ++ String.mk clave ++ "</claveAcceso>\n" ++
  "<codDoc>01</codDoc>\n" ++
  "<estab>" ++ f.establecimiento ++ "</estab>\n" ++
  "<ptoEmi>" ++ f.puntoEmision ++ "</ptoEmi>\n" ++
  "<secuencial>" ++ String.mk (padIzq 9 '0' f.secuencial.data) ++ "</secuencial>\n" ++
  "<dirMatriz>" ++ sanitizarTextoXML f.dirMatriz ++ "</dirMatriz>\n" ++
  "</infoTributaria>\n" ++
  "<infoFactura>\n" ++
  "<fechaEmision>" ++ fechaEmisionTexto ++ "</fechaEmision>\n" ++
  "<dirEstablecimiento>" ++ sanitizarTextoXML dirEst ++ "</dirEstablecimiento>\n" ++
  "<obligadoContabilidad>SI</obligadoContabilidad>\n" ++
  "<tipoIdentificacionComprador>" ++ f.cliente.tipoIdentificacion ++
    "</tipoIdentificacionComprador>\n" ++
  "<razonSocialComprador>" ++ sanitizarTextoXML f.cliente.razonSocial ++
    "</razonSocialComprador>\n" ++
  "<identificacionComprador>" ++ f.cliente.identificacion ++ "</identificacionComprador>\n" ++
  "<totalSinImpuestos>" ++ toFixed2 f.totalSinImpuestos ++ "</totalSinImpuestos>\n" ++
  "<totalDescuento>" ++ toFixed2 f.totalDescuento ++ "</totalDescuento>\n" ++
  "<totalConImpuestos>\n" ++
    unirCon "" ((totalesImpuestos f).map (fun p => totalImpuestoXml p.2)) ++
  "</totalConImpuestos>\n" ++
  "<propina>" ++ toFixed2 f.propina ++ "</propina>\n" ++
  "<importeTotal>" ++ toFixed2 f.importeTotal ++ "</importeTotal>\n" ++
  "<moneda>" ++ f.moneda ++ "</moneda>\n" ++
  pagosXml f ++
  "</infoFactura>\n" ++
  "<detalles>\n" ++ unirCon "" (f.items.map detalleXml) ++ "</detalles>\n" ++
  (if email ≠ "" ∨ telefono ≠ "" then
    "<infoAdicional>\n" ++
    (if email ≠ "" then
      "<campoAdicional nombre=\"Email\">" ++ email ++ "</campoAdicional>\n" else "") ++
    (if telefono ≠ "" then
      "<campoAdicional nombre=\"Teléfono\">" ++ telefono ++ "</campoAdicional>\n" else "") ++
    "</infoAdicional>\n"
  else "") ++
  "</factura>"

/-- What `generarXmlFactura` produces besides the mutated record: the clave,
the formatted emission date, the XML text, and the warnings it logs. -/
structure SalidaFactura where
  claveAcceso : List Char
  fechaEmisionTexto : String
  xml : String
  advertenciaFechaFutura : Bool
  advertenciaFechaSistema : Bool
  advertenciaAmbiente : Bool
deriving DecidableEq

/-- `generarXmlFactura` (xml-generator): resolve the emission date against
the (reference-adjusted) Ecuador clock, validate the ambiente, generate the
clave de acceso, write the validated ambiente back into the caller's record
(`factura.ambiente = ambiente`), resolve the establishment address and build
the XML.  The second component is the state of the caller's record after the
call; the final DOMParser/XMLSerializer round-trip of the source is the
identity on the well-formed text built here. -/
def generarXmlFactura (ahora : Momento) (cod : Nat) (f : Factura) :
    Except String SalidaFactura × Factura :=
  match generarClaveAcceso cod
      (parametrosClaveFactura f (resolverFechaEmision ahora f.fechaEmision).1
        (validarAmbiente f.ambiente).1) with
  | .error e => (.error e, f)
  | .ok clave =>
    let f2 := { f with ambiente := (validarAmbiente f.ambiente).1 }
    match direccionEstablecimientoEfectiva f with
    | none => (.error "dirEstablecimiento requerido pero vacío (minLength=1). Debe proporcionar un valor válido para direccionEstablecimiento o dirMatriz.", f2)
    | some dirEst =>
      (.ok { claveAcceso := clave
             fechaEmisionTexto :=
               formatoFechaBarras (resolverFechaEmision ahora f.fechaEmision).1
             xml := construirXmlFactura f2 clave
               (formatoFechaBarras (resolverFechaEmision ahora f.fechaEmision).1) dirEst
             advertenciaFechaFutura := (resolverFechaEmision ahora f.fechaEmision).2
             advertenciaFechaSistema := relojSistemaFuturo ahora
             advertenciaAmbiente := (validarAmbiente f.ambiente).2 }, f2)

/-- The parsed root element of a comprobante as xml-signer manipulates it:
its name, its attribute list (in document order) and the names of its child
elements (in document order). -/
structure RaizXml where
  nombre : String
  atributos : List (String × String)
  hijos : List String
deriving DecidableEq

/-- DOM `removeAttribute`. -/
def quitarAtributo (r : RaizXml) (n : String) : RaizXml :=
  { r with atributos := r.atributos.filter (fun a => a.1 != n) }

/-- DOM `hasAttribute`. -/
def tieneAtributo (r : RaizXml) (n : String) : Bool :=
  r.atributos.any (fun a => a.1 == n)

/-- DOM `setAttribute` for an attribute known to be absent (the only way the
source calls it). -/
def ponerAtributo (r : RaizXml) (n v : String) : RaizXml :=
  { r with atributos := r.atributos ++ [(n, v)] }

/-- The xmldsig namespace constant of xml-signer. -/
def nsXmlDsig : String := "http://www.w3.org/2000/09/xmldsig#"

/-- xml-signer constant `C14N`. -/
def C14N : String := "http://www.w3.org/TR/2001/REC-xml-c14n-20010315"

/-- xml-signer constant `DIGEST`. -/
def DIGEST : String := "http://www.w3.org/2001/04/xmlenc#sha256"

/-- xml-signer constant `SIGALG`. -/
def SIGALG : String := "http://www.w3.org/2001/04/xmldsig-more#rsa-sha256"

/-- xml-signer constant `TRANSFORM`. -/
def TRANSFORM : String := "http://www.w3.org/2000/09/xmldsig#enveloped-signature"

/-- The reference XPath hardcoded in the `sig.addReference` call of signXml:
`//*[local-name()='factura' and @id='comprobante']`. -/
def xpathReferencia : String :=
  "//*[local-name()=\x27factura\x27 and @id=\x27comprobante\x27]"

/-- The algorithm/reference parameters a `SignedXml` run is configured with. -/
structure ConfiguracionFirma where
  canonicalizationAlgorithm : String
  signatureAlgorithm : String
  digestAlgorithm : String
  transforms : List String
  referenceUri : String
  referenceXPath : String
deriving DecidableEq

/-- Result of `signXml`: the root of the returned document plus the
configuration the signature was computed with. -/
structure FirmaSalida where
  raiz : RaizXml
  configuracion : ConfiguracionFirma
deriving DecidableEq

/-- `signXml` (xml-signer): verify the certificate, parse the input into
`doc`, strip `Id`/`ID` from `doc`'s root, add `id="comprobante"` and the
`xmlns:ds` declaration to `doc`'s root when absent, check `doc` has a
`<detalles>` child, then call `sig.computeSignature(xmlString, ...)` with
fixed algorithms, reference URI `#comprobante` and `action: "append"`.
`computeSignature` receives the ORIGINAL `xmlString` — not a serialization
of the mutated `doc` — so the document it returns is the original root with
`ds:Signature` appended as last child, and every attribute normalization
performed on `doc` is discarded. -/
def signXml (certificadoValido : Bool) (raiz : RaizXml) : Except String FirmaSalida :=
  if !certificadoValido then .error "Certificado no válido" else
  let doc := quitarAtributo (quitarAtributo raiz "Id") "ID"
  let doc := if tieneAtributo doc "id" then doc else ponerAtributo doc "id" "comprobante"
  let doc := if tieneAtributo doc "xmlns:ds" then doc else ponerAtributo doc "xmlns:ds" nsXmlDsig
  if !(doc.hijos.contains "detalles") then
    .error "El XML no cumple con la estructura requerida: falta el nodo <detalles>"
  else
    .ok { raiz := { raiz with hijos := raiz.hijos ++ ["ds:Signature"] }
          configuracion :=
            { canonicalizationAlgorithm := C14N
              signatureAlgorithm := SIGALG
              digestAlgorithm := DIGEST
              transforms := [TRANSFORM, C14N]
              referenceUri := "#comprobante"
              referenceXPath := xpathReferencia } }

/-- An SRI SOAP message entry (identificador, mensaje, informacionAdicional). -/
structure Mensaje where
  identificador : String
  mensaje : String
  informacionAdicional : String
deriving DecidableEq

/-- Reception-service response body (`RespuestaRecepcionComprobante`). -/
structure RespuestaRecepcion where
  estado : String
  mensajes : List Mensaje
deriving DecidableEq

/-- One `autorizacion` entry of the authorization-service response. -/
structure Autorizacion where
  estado : String
  numeroAutorizacion : String
  fechaAutorizacion : String
  comprobante : Option String
  mensajes : List Mensaje
deriving DecidableEq

/-- Authorization-service response body (the `autorizacion` array, empty when
the service reports no authorizations). -/
structure RespuestaAutorizacion where
  autorizaciones : List Autorizacion
deriving DecidableEq

/-- Outcome of one SOAP attempt as seen by the retry loops: a thrown
transport/SOAP error, or a decoded response. -/
inductive IntentoSoap (α : Type) where
  | falla (mensaje : String)
  | respuesta (r : α)

/-- Observable trace of a retry loop: attempts actually made and the sleeps
performed between them (milliseconds). -/
structure TrazaReintentos where
  intentos : Nat
  esperasMs : List Nat
deriving DecidableEq

/-- Errors thrown out of the SOAP client operations. -/
inductive ErrorSri where
  | ambienteInvalido (mensaje : String)
  | claveInvalida (mensaje : String)
  | agotado (intentos : Nat) (ultimoError : String)
deriving DecidableEq

/-- The joined error text `enviarComprobante` builds from response messages
(`identificador: mensaje - informacionAdicional`, joined by `"; "`). -/
def erroresDe (ms : List Mensaje) : String :=
  unirCon "; " (ms.map (fun m => m.identificador ++ ": " ++ m.mensaje ++ " - " ++
    m.informacionAdicional))

/-- Transient-error heuristic of `enviarComprobante`: the joined error text
contains TIMEOUT, CONEXION or SERVICIO. -/
def esErrorTemporal (errores : String) : Bool :=
  contiene errores "TIMEOUT" || contiene errores "CONEXION" || contiene errores "SERVICIO"

/-- The thrown message of `enviarComprobante` after exhausting its retries. -/
def mensajeEnvioAgotado (n : Nat) (ultimo : String) : String :=
  "Error al enviar comprobante al SRI después de " ++ toString n ++ " intentos: " ++ ultimo

/-- The thrown message of `consultarAutorizacion` after exhausting its retries. -/
def mensajeConsultaAgotada (n : Nat) (ultimo : String) : String :=
  "Error al consultar autorización en el SRI después de " ++ toString n ++ " intentos: " ++ ultimo

/-- The `while (intento < maxReintentos)` loop of `enviarComprobante`.
`restante` counts the attempts still allowed, `hechos` those already made.
A returned response whose messages classify as temporal is rethrown and
retried; any caught error waits `esperaMs` and retries, except on the last
attempt, which breaks out and throws the exhaustion error reporting
`maxReintentos` attempts. -/
def bucleRecepcion (oracle : Nat → IntentoSoap RespuestaRecepcion)
    (maxReintentos esperaMs : Nat) :
    Nat → Nat → String → List Nat → Except ErrorSri RespuestaRecepcion × TrazaReintentos
  | 0, hechos, ultimo, esperas => (.error (.agotado maxReintentos ultimo), ⟨hechos, esperas⟩)
  | restante + 1, hechos, _ultimo, esperas =>
    let intento := hechos + 1
    let resultadoIntento : Except String RespuestaRecepcion :=
      match oracle intento with
      | .falla m => .error m
      | .respuesta r =>
        if !r.mensajes.isEmpty && esErrorTemporal (erroresDe r.mensajes) then
          .error ("Error temporal del SRI: " ++ erroresDe r.mensajes)
        else .ok r
    match resultadoIntento with
    | .ok r => (.ok r, ⟨intento, esperas⟩)
    | .error m =>
      if restante = 0 then (.error (.agotado maxReintentos m), ⟨intento, esperas⟩)
      else bucleRecepcion oracle maxReintentos esperaMs restante intento m (esperas ++ [esperaMs])

/-- `enviarComprobante` (sri-services): validate the ambiente, then run the
reception retry loop. -/
def enviarComprobante (oracle : Nat → IntentoSoap RespuestaRecepcion) (ambiente : String)
    (maxReintentos esperaMs : Nat) : Except ErrorSri RespuestaRecepcion × TrazaReintentos :=
  if ambiente = "1" ∨ ambiente = "2" then
    bucleRecepcion oracle maxReintentos esperaMs maxReintentos 0 "" []
  else
    (.error (.ambienteInvalido "Ambiente inválido. Debe ser \"1\" (pruebas) o \"2\" (producción)"),
     ⟨0, []⟩)

/-- `enviarComprobante` with its default parameters (3 attempts, 3000 ms). -/
def enviarComprobanteDefecto (oracle : Nat → IntentoSoap RespuestaRecepcion)
    (ambiente : String) : Except ErrorSri RespuestaRecepcion × TrazaReintentos :=
  enviarComprobante oracle ambiente 3 3000

/-- The retry loop of `consultarAutorizacion`.  A response whose first
autorizacion is `EN PROCESO` waits and retries unless this was the last
attempt (in which case the `EN PROCESO` response is returned as-is); a
response without autorizaciones is returned as-is; a thrown error waits and
retries, throwing the exhaustion error after the last attempt. -/
def bucleAutorizacion (oracle : Nat → IntentoSoap RespuestaAutorizacion)
    (maxReintentos esperaMs : Nat) :
    Nat → Nat → String → List Nat → Except ErrorSri RespuestaAutorizacion × TrazaReintentos
  | 0, hechos, ultimo, esperas => (.error (.agotado maxReintentos ultimo), ⟨hechos, esperas⟩)
  | restante + 1, hechos, ultimo, esperas =>
    let intento := hechos + 1
    match oracle intento with
    | .falla m =>
      if restante = 0 then (.error (.agotado maxReintentos m), ⟨intento, esperas⟩)
      else bucleAutorizacion oracle maxReintentos esperaMs restante intento m (esperas ++ [esperaMs])
    | .respuesta r =>
      match r.autorizaciones with
      | [] => (.ok r, ⟨intento, esperas⟩)
      | aut :: _ =>
        if aut.estado == "EN PROCESO" && restante != 0 then
          bucleAutorizacion oracle maxReintentos esperaMs restante intento ultimo (esperas ++ [esperaMs])
        else (.ok r, ⟨intento, esperas⟩)

/-- `consultarAutorizacion` (sri-services): validate the ambiente, validate
that the clave has 49 characters, then run the authorization retry loop. -/
def consultarAutorizacion (oracle : Nat → IntentoSoap RespuestaAutorizacion)
    (claveAcceso ambiente : String) (maxReintentos esperaMs : Nat) :
    Except ErrorSri RespuestaAutorizacion × TrazaReintentos :=
  if ambiente = "1" ∨ ambiente = "2" then
    if claveAcceso.length = 49 then
      bucleAutorizacion oracle maxReintentos esperaMs maxReintentos 0 "" []
    else
      (.error (.claveInvalida ("Clave de acceso inválida: " ++ claveAcceso ++
        ". Debe tener 49 dígitos.")), ⟨0, []⟩)
  else
    (.error (.ambienteInvalido "Ambiente inválido. Debe ser \"1\" (pruebas) o \"2\" (producción)"),
     ⟨0, []⟩)

/-- `consultarAutorizacion` with its default parameters (5 attempts, 3000 ms). -/
def consultarAutorizacionDefecto (oracle : Nat → IntentoSoap RespuestaAutorizacion)
    (claveAcceso ambiente : String) : Except ErrorSri RespuestaAutorizacion × TrazaReintentos :=
  consultarAutorizacion oracle claveAcceso ambiente 5 3000

/-- The file path `guardarComprobanteXml` writes to:
`comprobantes/<estado en minúsculas>/<clave>_<YYYYMMDD-HHmmss>.xml`. -/
def rutaGuardado (estado clave fechaTs : String) : String :=
  "comprobantes/" ++ aMinusculas estado ++ "/" ++ clave ++ "_" ++ fechaTs ++ ".xml"

/-- A persisted artifact: path written and XML content. -/
structure GuardadoXml where
  ruta : String
  contenido : String
deriving DecidableEq

/-- The characters after the first occurrence of `marca`. -/
def trasMarca (marca : List Char) : List Char → Option (List Char)
  | [] => none
  | c :: resto =>
    if marca.isPrefixOf (c :: resto) then some ((c :: resto).drop marca.length)
    else trasMarca marca resto

/-- The characters before the first occurrence of `marca`. -/
def antesDeMarca (marca : List Char) : List Char → Option (List Char)
  | [] => none
  | c :: resto =>
    if marca.isPrefixOf (c :: resto) then some []
    else (antesDeMarca marca resto).map (fun l => c :: l)

/-- The `xmlContent.match(<claveAcceso>([^<]+)</claveAcceso>)` extraction of
`procesarComprobante`: the non-empty, `<`-free text between the first
claveAcceso tag pair. -/
def extraerClaveAcceso (xml : String) : Option String :=
  match trasMarca "<claveAcceso>".data xml.data with
  | none => none
  | some resto =>
    match antesDeMarca "</claveAcceso>".data resto with
    | none => none
    | some contenido =>
      if contenido.isEmpty || contenido.contains '<' then none
      else some (String.mk contenido)

/-- The result object `procesarComprobante` returns (it never throws). -/
structure ResultadoProceso where
  success : Bool
  stage : String
  message : String
  estado : Option String
  numeroAutorizacion : Option String
  mensajes : List Mensaje
  claveAcceso : Option String
deriving DecidableEq

/-- Everything observable about one `procesarComprobante` run: the returned
object, the artifacts written by `guardarComprobanteXml`, the orchestration
sleep(s), and the traces of the two retry loops it drove. -/
structure EjecucionProceso where
  resultado : ResultadoProceso
  guardados : List GuardadoXml
  esperasProcesoMs : List Nat
  trazaRecepcion : Option TrazaReintentos
  trazaAutorizacion : Option TrazaReintentos
deriving DecidableEq

/-- The catch-all result of `procesarComprobante` (stage "proceso"). -/
def resultadoErrorProceso (clave : Option String) (mensajeError : String) : ResultadoProceso :=
  { success := false
    stage := "proceso"
    message := "Error en el proceso: " ++ mensajeError
    estado := none
    numeroAutorizacion := none
    mensajes := []
    claveAcceso := clave }

/-- `procesarComprobante` (sri-services): extract the clave, verify the
certificate, sign, persist FIRMADO, submit (reception), on any estado other
than RECIBIDA persist RECHAZADO and return a non-exceptional rejection
result, otherwise persist RECIBIDO, sleep, poll (authorization) with the
SAME `maxReintentos` option, and persist/return the final state.  Thrown
errors are caught, an ERROR artifact is written when a signed XML exists,
and a stage-"proceso" result is returned — the function never throws.
The certificate verdict, the signer output, both SOAP services and the
filesystem timestamp enter as oracles. -/
def procesarComprobante (verificacion : Bool × String) (firma : Except String String)
    (recepcion : Nat → IntentoSoap RespuestaRecepcion)
    (autorizacion : Nat → IntentoSoap RespuestaAutorizacion)
    (fechaTs xmlContent ambiente : String) (maxReintentos esperaMs : Nat)
    (guardarXml : Bool) : EjecucionProceso :=
  match extraerClaveAcceso xmlContent with
  | none =>
    { resultado := resultadoErrorProceso none "No se pudo extraer la clave de acceso del XML"
      guardados := [], esperasProcesoMs := [], trazaRecepcion := none, trazaAutorizacion := none }
  | some clave =>
    if !verificacion.1 then
      { resultado :=
          { success := false, stage := "certificado"
            message := "Certificado no válido: " ++ verificacion.2
            estado := none, numeroAutorizacion := none, mensajes := []
            claveAcceso := some clave }
        guardados := [], esperasProcesoMs := [], trazaRecepcion := none
        trazaAutorizacion := none }
    else
      match firma with
      | .error e =>
        { resultado := resultadoErrorProceso (some clave) e
          guardados := [], esperasProcesoMs := [], trazaRecepcion := none
          trazaAutorizacion := none }
      | .ok xmlSigned =>
        let guardadosFirmado :=
          if guardarXml then [⟨rutaGuardado "FIRMADO" clave fechaTs, xmlSigned⟩] else []
        let envio := enviarComprobante recepcion ambiente maxReintentos esperaMs
        match envio.1 with
        | .error e =>
          { resultado := resultadoErrorProceso (some clave)
              (match e with
               | .agotado n u => mensajeEnvioAgotado n u
               | .ambienteInvalido m => m
               | .claveInvalida m => m)
            guardados := guardadosFirmado ++
              (if guardarXml then [⟨rutaGuardado "ERROR" clave fechaTs, xmlSigned⟩] else [])
            esperasProcesoMs := [], trazaRecepcion := some envio.2
            trazaAutorizacion := none }
        | .ok r =>
          if r.estado != "RECIBIDA" then
            { resultado :=
                { success := false, stage := "recepcion"
                  message := "El comprobante no fue recibido correctamente"
                  estado := none, numeroAutorizacion := none, mensajes := []
                  claveAcceso := some clave }
              guardados := guardadosFirmado ++
                (if guardarXml then [⟨rutaGuardado "RECHAZADO" clave fechaTs, xmlSigned⟩] else [])
              esperasProcesoMs := [], trazaRecepcion := some envio.2
              trazaAutorizacion := none }
          else
            let guardadosRecibido := guardadosFirmado ++
              (if guardarXml then [⟨rutaGuardado "RECIBIDO" clave fechaTs, xmlSigned⟩] else [])
            let consulta := consultarAutorizacion autorizacion clave ambiente maxReintentos esperaMs
            match consulta.1 with
            | .error e =>
              { resultado := resultadoErrorProceso (some clave)
                  (match e with
                   | .agotado n u => mensajeConsultaAgotada n u
                   | .ambienteInvalido m => m
                   | .claveInvalida m => m)
                guardados := guardadosRecibido ++
                  (if guardarXml then [⟨rutaGuardado "ERROR" clave fechaTs, xmlSigned⟩] else [])
                esperasProcesoMs := [esperaMs], trazaRecepcion := some envio.2
                trazaAutorizacion := some consulta.2 }
            | .ok ra =>
              match ra.autorizaciones with
              | [] =>
                { resultado :=
                    { success := false, stage := "autorizacion"
                      message := "No se encontraron autorizaciones para el comprobante"
                      estado := none, numeroAutorizacion := none, mensajes := []
                      claveAcceso := some clave }
                  guardados := guardadosRecibido, esperasProcesoMs := [esperaMs]
                  trazaRecepcion := some envio.2, trazaAutorizacion := some consulta.2 }
              | aut :: _ =>
                { resultado :=
                    { success := aut.estado == "AUTORIZADO", stage := "autorizacion"
                      message :=
                        if aut.estado == "AUTORIZADO" then "Comprobante autorizado correctamente"
                        else "Comprobante no autorizado: " ++ aut.estado
                      estado := some aut.estado
                      numeroAutorizacion := some aut.numeroAutorizacion
                      mensajes := aut.mensajes
                      claveAcceso := some clave }
                  guardados := guardadosRecibido ++
                    (if guardarXml then
                      [⟨rutaGuardado
                          (if aut.estado == "AUTORIZADO" then "AUTORIZADO" else "RECHAZADO")
                          clave fechaTs,
                        aut.comprobante.getD xmlSigned⟩]
                    else [])
                  esperasProcesoMs := [esperaMs], trazaRecepcion := some envio.2
                  trazaAutorizacion := some consulta.2 }

/-- `procesarComprobante` with its default options
(maxReintentos = 3, tiempoEsperaMs = 3000, guardarXml = true). -/
def procesarComprobanteDefecto (verificacion : Bool × String) (firma : Except String String)
    (recepcion : Nat → IntentoSoap RespuestaRecepcion)
    (autorizacion : Nat → IntentoSoap RespuestaAutorizacion)
    (fechaTs xmlContent ambiente : String) : EjecucionProceso :=
  procesarComprobante verificacion firma recepcion autorizacion fechaTs xmlContent ambiente
    3 3000 true

/-- The result object of `verificarEstadoComprobante` (sri-services). -/
structure ResultadoVerificacion where
  success : Bool
  encontrado : Bool
  estado : Option String
  autorizado : Option Bool
  numeroAutorizacion : Option String
  message : Option String
  claveAcceso : String
deriving DecidableEq

/-- `verificarEstadoComprobante` (sri-services): call `consultarAutorizacion`
with 2 attempts and 2000 ms backoff inside a try/catch; every thrown error
becomes `success = false, encontrado = false`, an empty autorizacion list
becomes `success = false, encontrado = false`, and only a response with an
autorizacion entry yields `success = true, encontrado = true`. -/
def verificarEstadoComprobante (oracle : Nat → IntentoSoap RespuestaAutorizacion)
    (claveAcceso ambiente : String) : ResultadoVerificacion :=
  match (consultarAutorizacion oracle claveAcceso ambiente 2 2000).1 with
  | .error e =>
    { success := false, encontrado := false, estado := none, autorizado := none
      numeroAutorizacion := none
      message := some ("Error al verificar estado: " ++
        (match e with
         | .agotado n u => mensajeConsultaAgotada n u
         | .ambienteInvalido m => m
         | .claveInvalida m => m))
      claveAcceso := claveAcceso }
  | .ok ra =>
    match ra.autorizaciones with
    | [] =>
      { success := false, encontrado := false, estado := none, autorizado := none
        numeroAutorizacion := none, message := some "No se encontró el comprobante"
        claveAcceso := claveAcceso }
    | aut :: _ =>
      { success := true, encontrado := true, estado := some aut.estado
        autorizado := some (aut.estado == "AUTORIZADO")
        numeroAutorizacion := some aut.numeroAutorizacion, message := none
        claveAcceso := claveAcceso }

/-- Concrete clave-acceso inputs of scenario S2 of the spec: date 2025-08-07,
docType 01, RUC 0918097783001, env 1, serie 001001, sequential 1,
numericCode 12345678, emissionType 1. -/
def parametrosS2 : ParametrosClave :=
  { fechaEmision := { anio := 2025, mes := 8, dia := 7, minutosDia := 0 }
    tipoComprobante := "01".data
    ruc := "0918097783001".data
    ambiente := "1".data
    serie := "001001".data
    secuencial := "1".data
    tipoEmision := "1".data }

/-- The key the generator emits for scenario S2. -/
def claveS2 : List Char :=
  ((generarClaveAcceso 12345678 parametrosS2).toOption).getD []

/-- A factura root that already carries a capitalized `Id` attribute besides
the lowercase one — the input at which the claimed Id-removal is observable. -/
def raizFacturaConId : RaizXml :=
  { nombre := "factura"
    atributos := [("Id", "x"), ("id", "comprobante"), ("version", "1.1.0")]
    hijos := ["infoTributaria", "infoFactura", "detalles", "infoAdicional"] }

/-- The root shape `generarXmlFactura` emits (no `Id`/`ID`, no `xmlns:ds`). -/
def raizFacturaNormal : RaizXml :=
  { nombre := "factura"
    atributos := [("id", "comprobante"), ("version", "1.1.0")]
    hijos := ["infoTributaria", "infoFactura", "detalles"] }

/-- The signer output on the standard generated root. -/
def firmaSalidaNormal : FirmaSalida :=
  ((signXml true raizFacturaNormal).toOption).getD
    { raiz := { nombre := "", atributos := [], hijos := [] }
      configuracion := { canonicalizationAlgorithm := "", signatureAlgorithm := ""
                         digestAlgorithm := "", transforms := [], referenceUri := ""
                         referenceXPath := "" } }

/-- Ecuador clock reading 2025-08-07 10:00 (inside the reference window). -/
def ahoraPrueba : Momento := { anio := 2025, mes := 8, dia := 7, minutosDia := 600 }

/-- A caller-supplied emission date in the future of `ahoraPrueba`. -/
def fechaFuturaPrueba : Momento := { anio := 2025, mes := 9, dia := 1, minutosDia := 0 }

/-- Final-consumer buyer of scenario S3. -/
def clientePrueba : Cliente :=
  { razonSocial := "CONSUMIDOR FINAL", identificacion := "9999999999"
    tipoIdentificacion := "07", direccion := "", email := "", telefono := "" }

/-- IVA impuesto of scenario S3 (codigo 2, codigoPorcentaje 2, no explicit
tarifa). -/
def impuestoPrueba : Impuesto :=
  { codigo := "2", codigoPorcentaje := "2", tarifa := .indefinida
    baseImponible := 10, valor := (6 : Rat) / 5 }

/-- Single item of scenario S3. -/
def itemPrueba : ItemFactura :=
  { codigoPrincipal := "SKU1", descripcion := "PRODUCTO", cantidad := 1
    precioUnitario := 10, descuento := 0, impuestos := [impuestoPrueba] }

/-- A concrete invoice record whose emission date lies in the future of
`ahoraPrueba`. -/
def facturaPrueba : Factura :=
  { ambiente := "1", tipoEmision := "1", razonSocial := "EMPRESA DEMO"
    nombreComercial := "EMPRESA DEMO", ruc := "0918097783001"
    establecimiento := "001", puntoEmision := "001", secuencial := "1"
    fechaEmision := some fechaFuturaPrueba
    direccionEstablecimiento := "GUAYAQUIL", dirMatriz := "GUAYAQUIL"
    cliente := clientePrueba, items := [itemPrueba], pagos := []
    totalSinImpuestos := 10, totalDescuento := 0, propina := 0
    importeTotal := (56 : Rat) / 5, moneda := "DOLAR" }

/-- What `generarXmlFactura` emits for `facturaPrueba` under `ahoraPrueba`. -/
def salidaFacturaPrueba : SalidaFactura :=
  ((generarXmlFactura ahoraPrueba 12345678 facturaPrueba).1.toOption).getD
    { claveAcceso := [], fechaEmisionTexto := "", xml := ""
      advertenciaFechaFutura := false, advertenciaFechaSistema := false
      advertenciaAmbiente := false }

/-- The same invoice with an out-of-range ambiente. -/
def facturaAmbienteRaro : Factura := { facturaPrueba with ambiente := "X" }

/-- Reception service that always accepts. -/
def oracleRecepcionRecibida : Nat → IntentoSoap RespuestaRecepcion :=
  fun _ => .respuesta { estado := "RECIBIDA", mensajes := [] }

/-- Reception service answering scenario S5: estado DEVUELTA with message
43 / CLAVE ACCESO REGISTRADA (not classified as temporal). -/
def oracleRecepcionDevuelta : Nat → IntentoSoap RespuestaRecepcion :=
  fun _ => .respuesta
    { estado := "DEVUELTA"
      mensajes := [{ identificador := "43", mensaje := "CLAVE ACCESO REGISTRADA"
                     informacionAdicional := "" }] }

/-- Reception transport that always throws. -/
def oracleRecepcionCaida : Nat → IntentoSoap RespuestaRecepcion :=
  fun _ => .falla "ECONNREFUSED"

/-- Authorization transport that always throws. -/
def oracleAutorizacionCaida : Nat → IntentoSoap RespuestaAutorizacion :=
  fun _ => .falla "ECONNREFUSED"

/-- Authorization service that always authorizes. -/
def oracleAutorizacionAutorizado : Nat → IntentoSoap RespuestaAutorizacion :=
  fun _ => .respuesta
    { autorizaciones := [{ estado := "AUTORIZADO", numeroAutorizacion := "0708202501"
                           fechaAutorizacion := "2025-08-07T10:00:00-05:00"
                           comprobante := some "<factura firmada/>", mensajes := [] }] }

/-- A syntactically plausible 49-digit clave for the SOAP fixtures. -/
def clavePrueba : String := "0708202501091809778300110010010000000011234567811"

/-- A minimal signed comprobante carrying `clavePrueba`. -/
def xmlPrueba : String :=
  "<factura id=\"comprobante\"><infoTributaria><claveAcceso>" ++ clavePrueba ++
  "</claveAcceso></infoTributaria><detalles/></factura>"

theorem coeficientes_ciclicos : coeficientes = coeficientesEspec := by decide

theorem digitoDeSuma_lt_10 (s : Nat) : digitoDeSuma s < 10 := by
  have h : s % 11 < 11 := Nat.mod_lt _ (by norm_num)
  unfold digitoDeSuma
  dsimp only
  split_ifs <;> omega

/-- C1: for every 48-digit base, the check digit `generarClaveAcceso` computes
from the hardcoded coefficient table coincides with the specification formula
(cyclic coefficients `[2,3,4,5,6,7]`, `r = 11 - S mod 11`, 11 → 0, 10 → 1,
else r); in particular S mod 11 = 0 yields 0, S mod 11 = 1 yields 1 and
S mod 11 = 5 yields 6. -/
theorem c1_digito_verificador (ds : List Nat) (_h : ds.length = 48) :
    digitoDeSuma (sumaPonderada ds coeficientes) = digitoEspec ds
    ∧ (sumaEspec ds % 11 = 0 → digitoDeSuma (sumaPonderada ds coeficientes) = 0)
    ∧ (sumaEspec ds % 11 = 1 → digitoDeSuma (sumaPonderada ds coeficientes) = 1)
    ∧ (sumaEspec ds % 11 = 5 → digitoDeSuma (sumaPonderada ds coeficientes) = 6) := by
  have hsum : sumaPonderada ds coeficientes = sumaEspec ds := by
    rw [sumaEspec, coeficientes_ciclicos]
  refine ⟨by rw [hsum]; rfl, ?_, ?_, ?_⟩ <;>
    intro hm <;> rw [hsum] <;> simp [digitoDeSuma, hm]

/-- C1 witness: the theorem applied at the concrete all-zero 48-digit base
(S = 0, so S mod 11 = 0 and the emitted check digit is 0). -/
theorem c1_digito_verificador_witness :
    (List.replicate 48 0).length = 48 ∧
    (digitoDeSuma (sumaPonderada (List.replicate 48 0) coeficientes)
        = digitoEspec (List.replicate 48 0)
     ∧ (sumaEspec (List.replicate 48 0) % 11 = 0 →
        digitoDeSuma (sumaPonderada (List.replicate 48 0) coeficientes) = 0)
     ∧ (sumaEspec (List.replicate 48 0) % 11 = 1 →
        digitoDeSuma (sumaPonderada (List.replicate 48 0) coeficientes) = 1)
     ∧ (sumaEspec (List.replicate 48 0) % 11 = 5 →
        digitoDeSuma (sumaPonderada (List.replicate 48 0) coeficientes) = 6)) :=
  ⟨by decide, c1_digito_verificador (List.replicate 48 0) (by decide)⟩


theorem digitosDe_longitud :
    ∀ (xs : List Char) (ds : List Nat), digitosDe xs = .ok ds → ds.length = xs.length := by
  intro xs
  induction xs with
  | nil =>
    intro ds h
    simp only [digitosDe] at h
    cases h
    rfl
  | cons c resto ih =>
    intro ds h
    simp only [digitosDe] at h
    split at h
    · cases hrec : digitosDe resto with
      | ok es =>
        rw [hrec] at h
        cases h
        simp [ih es hrec]
      | error e => rw [hrec] at h; cases h
    · cases h

theorem digitosDe_todos_digitos :
    ∀ (xs : List Char) (ds : List Nat), digitosDe xs = .ok ds →
      ∀ c ∈ xs, c.isDigit = true := by
  intro xs
  induction xs with
  | nil => intro ds _ c hc; cases hc
  | cons a resto ih =>
    intro ds h c hc
    simp only [digitosDe] at h
    split at h
    next hdig =>
      cases hrec : digitosDe resto with
      | ok es =>
        rcases List.mem_cons.mp hc with rfl | hresto
        · exact hdig
        · exact ih es hrec c hresto
      | error e => rw [hrec] at h; cases h
    next => cases h

theorem digitosDe_append :
    ∀ (xs ys : List Char) (ds es : List Nat), digitosDe xs = .ok ds →
      digitosDe ys = .ok es → digitosDe (xs ++ ys) = .ok (ds ++ es) := by
  intro xs
  induction xs with
  | nil =>
    intro ys ds es h1 h2
    simp only [digitosDe] at h1
    cases h1
    simp only [List.nil_append]
    exact h2
  | cons c resto ih =>
    intro ys ds es h1 h2
    rw [List.cons_append]
    simp only [digitosDe] at h1 ⊢
    split at h1
    next hdig =>
      rw [if_pos hdig]
      cases hrec : digitosDe resto with
      | ok fs =>
        rw [hrec] at h1
        cases h1
        rw [ih ys fs es hrec h2]
        rfl
      | error e => rw [hrec] at h1; cases h1
    next => cases h1

theorem toString_digito (d : Nat) (h : d < 10) :
    (toString d).data = [Char.ofNat (48 + d)] := by
  interval_cases d <;> rfl

theorem digitosDe_digito_unico (d : Nat) (h : d < 10) :
    digitosDe [Char.ofNat (48 + d)] = .ok [d] := by
  interval_cases d <;> rfl

theorem isDigit_char_de_digito (d : Nat) (h : d < 10) :
    (Char.ofNat (48 + d)).isDigit = true := by
  interval_cases d <;> decide

theorem tomar_prefijo {α : Type} (xs ys : List α) : (xs ++ ys).take xs.length = xs := by
  induction xs with
  | nil => simp
  | cons a resto ih => simp [ih]

theorem obtenerD_tras_prefijo {α : Type} (xs : List α) (a dflt : α) :
    (xs ++ [a]).getD xs.length dflt = a := by
  induction xs with
  | nil => rfl
  | cons b resto ih =>
    simp only [List.cons_append, List.length_cons, List.getD_cons_succ]
    exact ih

/-- C2: every key `generarClaveAcceso` returns is exactly 49 decimal digits
and validates against itself — recomputing the modulus-11 check digit over
its first 48 digits yields its 49th digit. -/
theorem c2_clave_valida (cod : Nat) (p : ParametrosClave) (k : List Char)
    (h : generarClaveAcceso cod p = .ok k) :
    k.length = 49 ∧ (∀ c ∈ k, c.isDigit = true) ∧ validate k = true := by
  unfold generarClaveAcceso at h
  split at h
  next h48 =>
    split at h
    next hco =>
      cases hds : digitosDe (claveBaseDe cod p) with
      | error e => rw [hds] at h; cases h
      | ok ds =>
        rw [hds] at h
        dsimp only at h
        split at h
        next h49 =>
          injection h with hk
          subst hk
          have hd10 : digitoDeSuma (sumaPonderada ds coeficientes) < 10 :=
            digitoDeSuma_lt_10 _
          have hdat := toString_digito _ hd10
          have hlen : ds.length = 48 := by
            rw [digitosDe_longitud _ _ hds, h48]
          have hdig : ∀ c ∈ claveBaseDe cod p ++
              (toString (digitoDeSuma (sumaPonderada ds coeficientes))).data,
              c.isDigit = true := by
            intro c hc
            rcases List.mem_append.mp hc with hbase | hdigito
            · exact digitosDe_todos_digitos _ _ hds c hbase
            · rw [hdat] at hdigito
              rcases List.mem_singleton.mp hdigito with rfl
              exact isDigit_char_de_digito _ hd10
          refine ⟨h49, hdig, ?_⟩
          have hk2 : digitosDe (claveBaseDe cod p ++
              (toString (digitoDeSuma (sumaPonderada ds coeficientes))).data) =
              .ok (ds ++ [digitoDeSuma (sumaPonderada ds coeficientes)]) := by
            rw [hdat]
            exact digitosDe_append _ _ _ _ hds (digitosDe_digito_unico _ hd10)
          have hespec : digitoEspec ds = digitoDeSuma (sumaPonderada ds coeficientes) := by
            show digitoDeSuma (sumaEspec ds) = digitoDeSuma (sumaPonderada ds coeficientes)
            rw [sumaEspec, coeficientes_ciclicos]
          unfold validate
          rw [hk2]
          simp only [h49, beq_iff_eq, Bool.and_eq_true, List.all_eq_true, decide_eq_true_eq]
          refine ⟨⟨trivial, fun c hc => hdig c hc⟩, ?_⟩
          rw [← hlen, tomar_prefijo, obtenerD_tras_prefijo, hespec]
        next => cases h
    next => cases h
  next => cases h

/-- C2 witness: the theorem applied at scenario S2 of the spec
(base 070820250109180977830011001001000000001123456781). -/
theorem c2_clave_valida_witness :
    generarClaveAcceso 12345678 parametrosS2 = .ok claveS2 ∧
    (claveS2.length = 49 ∧ (∀ c ∈ claveS2, c.isDigit = true) ∧ validate claveS2 = true) :=
  ⟨rfl, c2_clave_valida 12345678 parametrosS2 claveS2 rfl⟩

/-- C3: the SignedDocument invariant does not survive signXml, because
`sig.computeSignature` is called on the original `xmlString` rather than on
a serialization of the normalized `doc`.  At a root that arrives with a
pre-existing `Id` attribute, the returned document still carries `Id`
(claimed removed) and carries no `xmlns:ds` declaration on the root
(claimed declared) — its own log lines claim both normalizations were
applied — while `ds:Signature` is indeed appended as last child. -/
theorem c3_firma_divergente :
    (signXml true raizFacturaConId).map
        (fun s => (tieneAtributo s.raiz "Id", tieneAtributo s.raiz "xmlns:ds", s.raiz.hijos))
      = .ok (true, false,
          ["infoTributaria", "infoFactura", "detalles", "infoAdicional", "ds:Signature"]) := by
  rfl

/-- C4: every successful signXml run is configured with exactly the fixed,
non-configurable parameters: inclusive C14N 20010315 canonicalization,
rsa-sha256 signature, xmlenc sha256 digest, transforms enveloped-signature
then C14N, reference URI #comprobante, and a digest XPath locating the root
via local-name() and the lowercase attribute id='comprobante'. -/
theorem c4_parametros_firma (certificadoValido : Bool) (raiz : RaizXml) (s : FirmaSalida)
    (h : signXml certificadoValido raiz = .ok s) :
    s.configuracion.canonicalizationAlgorithm =
        "http://www.w3.org/TR/2001/REC-xml-c14n-20010315" ∧
    s.configuracion.signatureAlgorithm = "http://www.w3.org/2001/04/xmldsig-more#rsa-sha256" ∧
    s.configuracion.digestAlgorithm = "http://www.w3.org/2001/04/xmlenc#sha256" ∧
    s.configuracion.transforms = ["http://www.w3.org/2000/09/xmldsig#enveloped-signature",
      "http://www.w3.org/TR/2001/REC-xml-c14n-20010315"] ∧
    s.configuracion.referenceUri = "#comprobante" ∧
    contiene s.configuracion.referenceXPath "local-name()" = true ∧
    contiene s.configuracion.referenceXPath "@id=\x27comprobante\x27" = true := by
  unfold signXml at h
  split at h
  next => cases h
  next =>
    dsimp only at h
    split at h <;> split at h <;> split at h <;> cases h
    all_goals refine ⟨rfl, rfl, rfl, rfl, rfl, ?_, ?_⟩
    all_goals show contiene xpathReferencia _ = true
    all_goals decide

/-- C4 witness: the theorem applied to the signer run on the standard
generated factura root. -/
theorem c4_parametros_firma_witness :
    signXml true raizFacturaNormal = .ok firmaSalidaNormal ∧
    (firmaSalidaNormal.configuracion.canonicalizationAlgorithm =
        "http://www.w3.org/TR/2001/REC-xml-c14n-20010315" ∧
     firmaSalidaNormal.configuracion.signatureAlgorithm =
        "http://www.w3.org/2001/04/xmldsig-more#rsa-sha256" ∧
     firmaSalidaNormal.configuracion.digestAlgorithm =
        "http://www.w3.org/2001/04/xmlenc#sha256" ∧
     firmaSalidaNormal.configuracion.transforms =
        ["http://www.w3.org/2000/09/xmldsig#enveloped-signature",
         "http://www.w3.org/TR/2001/REC-xml-c14n-20010315"] ∧
     firmaSalidaNormal.configuracion.referenceUri = "#comprobante" ∧
     contiene firmaSalidaNormal.configuracion.referenceXPath "local-name()" = true ∧
     contiene firmaSalidaNormal.configuracion.referenceXPath "@id=\x27comprobante\x27" = true) :=
  ⟨rfl, c4_parametros_firma true raizFacturaNormal firmaSalidaNormal rfl⟩

/-- C7 counterexample: an explicitly supplied numeric tarifa of 0 together
with codigoPorcentaje "2" is emitted as "12.00" (the derivation), not as the
supplied value "0.00" — `if (imp.tarifa)` treats the number 0 as absent. -/
theorem c7_tarifa_counterexample :
    tarifaIvaDe (ValorTarifa.numero 0) "2" = "12.00" ∧
    toFixed2 0 = "0.00" ∧
    tarifaIvaDe (ValorTarifa.numero 0) "2" ≠ toFixed2 0 := by
  refine ⟨rfl, by decide, by decide⟩

/-- C7 (amended): when the supplied tarifa is JS-falsy (absent, the number 0
or the empty string) the emitted tarifa text is derived from
codigoPorcentaje (2 → 12.00, 3 → 14.00, 8 → 15.00, else 0.00); a truthy
numeric tarifa is emitted through toFixed(2) and a truthy string tarifa is
emitted as given. -/
theorem c7_tarifa_amended (t : ValorTarifa) (cp : String)
    (hfalsy : esVerdadera t = false) :
    tarifaIvaDe t cp =
      (if cp == "2" then "12.00" else if cp == "3" then "14.00"
       else if cp == "8" then "15.00" else "0.00") ∧
    (∀ n : Rat, n ≠ 0 → tarifaIvaDe (ValorTarifa.numero n) cp = toFixed2 n) ∧
    (∀ s : String, s ≠ "" → tarifaIvaDe (ValorTarifa.cadena s) cp = s) := by
  refine ⟨?_, ?_, ?_⟩
  · simp only [tarifaIvaDe, hfalsy, Bool.false_eq_true, if_false]
  · intro n hn
    simp [tarifaIvaDe, esVerdadera, hn]
  · intro s hs
    simp [tarifaIvaDe, esVerdadera, hs]

/-- C7 witness: the amended theorem applied at an absent tarifa with
codigoPorcentaje "3" (emitting 14.00). -/
theorem c7_tarifa_amended_witness :
    esVerdadera ValorTarifa.indefinida = false ∧
    (tarifaIvaDe ValorTarifa.indefinida "3" =
      (if ("3" : String) == "2" then "12.00" else if ("3" : String) == "3" then "14.00"
       else if ("3" : String) == "8" then "15.00" else "0.00") ∧
     (∀ n : Rat, n ≠ 0 → tarifaIvaDe (ValorTarifa.numero n) "3" = toFixed2 n) ∧
     (∀ s : String, s ≠ "" → tarifaIvaDe (ValorTarifa.cadena s) "3" = s)) :=
  ⟨rfl, c7_tarifa_amended ValorTarifa.indefinida "3" rfl⟩

set_option maxHeartbeats 1000000 in
theorem clave_comienza_con_fecha (cod : Nat) (p : ParametrosClave) (k : List Char)
    (h : generarClaveAcceso cod p = .ok k)
    (hl : (ddmmyyyy p.fechaEmision).length = 8) :
    k.take 8 = ddmmyyyy p.fechaEmision := by
  unfold generarClaveAcceso at h
  split at h
  next h48 =>
    split at h
    next hco =>
      cases hds : digitosDe (claveBaseDe cod p) with
      | error e => rw [hds] at h; cases h
      | ok ds =>
        rw [hds] at h
        dsimp only at h
        split at h
        next h49 =>
          injection h with hk
          subst hk
          rw [← hl]
          simp only [claveBaseDe, List.append_assoc]
          rw [tomar_prefijo]
        next => cases h
    next => cases h
  next => cases h

/-- C8 counterexample: with the system clock at 2026-10-12 10:00 Ecuador
and a caller-supplied emission date of 2026-10-13 (strictly in the future),
the emission date becomes 2025-08-07 — the hardcoded reference day — rather
than the current Ecuador date 2026-10-12 the claim prescribes. -/
theorem c8_fecha_counterexample :
    resolverFechaEmision { anio := 2026, mes := 10, dia := 12, minutosDia := 600 }
        (some { anio := 2026, mes := 10, dia := 13, minutosDia := 0 })
      = ({ anio := 2025, mes := 8, dia := 7, minutosDia := 600 }, true) ∧
    ({ anio := 2025, mes := 8, dia := 7, minutosDia := 600 } : Momento) ≠
      { anio := 2026, mes := 10, dia := 12, minutosDia := 600 } :=
  ⟨rfl, by decide⟩

set_option maxHeartbeats 1000000 in
/-- C8 (amended): when the caller-supplied fechaEmision is strictly after
the reference-adjusted current Ecuador date (the system clock, clamped to
2025-08-07 whenever it runs past 2025-08-08), generarXmlFactura clamps the
emission date to that adjusted date and flags the warning; the clamped date
is the one formatted DD/MM/YYYY in infoFactura/fechaEmision and, as the same
calendar day, the one embedded in the first eight digits of the generated
claveAcceso. -/
theorem c8_fecha_clamp (ahora fe : Momento) (cod : Nat) (f : Factura)
    (salida : SalidaFactura)
    (hfe : f.fechaEmision = some fe)
    (hfut : fe.despuesDe (ajustarFechaSistema ahora) = true)
    (hok : (generarXmlFactura ahora cod f).1 = .ok salida)
    (hl8 : (ddmmyyyy (ajustarFechaSistema ahora)).length = 8) :
    salida.advertenciaFechaFutura = true ∧
    salida.fechaEmisionTexto = formatoFechaBarras (ajustarFechaSistema ahora) ∧
    salida.claveAcceso.take 8 = ddmmyyyy (ajustarFechaSistema ahora) := by
  have hres : resolverFechaEmision ahora f.fechaEmision = (ajustarFechaSistema ahora, true) := by
    rw [hfe]
    simp [resolverFechaEmision, hfut]
  unfold generarXmlFactura at hok
  rw [hres] at hok
  cases hc : generarClaveAcceso cod
      (parametrosClaveFactura f (ajustarFechaSistema ahora, true).1
        (validarAmbiente f.ambiente).1) with
  | error e => rw [hc] at hok; cases hok
  | ok clave =>
    rw [hc] at hok
    dsimp only at hok
    split at hok
    next => cases hok
    next dirEst =>
      injection hok with hs
      subst hs
      refine ⟨rfl, rfl, ?_⟩
      exact clave_comienza_con_fecha cod _ clave hc hl8

set_option maxHeartbeats 2000000 in
/-- C8 witness: the amended theorem applied at a concrete invoice whose
supplied date 2025-09-01 lies after the Ecuador clock reading 2025-08-07
10:00 (reference adjustment inactive): the emitted date is 07/08/2025 and
the clave opens with 07082025. -/
theorem c8_fecha_clamp_witness :
    facturaPrueba.fechaEmision = some fechaFuturaPrueba ∧
    fechaFuturaPrueba.despuesDe (ajustarFechaSistema ahoraPrueba) = true ∧
    (generarXmlFactura ahoraPrueba 12345678 facturaPrueba).1 = .ok salidaFacturaPrueba ∧
    (ddmmyyyy (ajustarFechaSistema ahoraPrueba)).length = 8 ∧
    (salidaFacturaPrueba.advertenciaFechaFutura = true ∧
     salidaFacturaPrueba.fechaEmisionTexto =
       formatoFechaBarras (ajustarFechaSistema ahoraPrueba) ∧
     salidaFacturaPrueba.claveAcceso.take 8 = ddmmyyyy (ajustarFechaSistema ahoraPrueba)) :=
  ⟨rfl, by decide, rfl, by decide,
   c8_fecha_clamp ahoraPrueba fechaFuturaPrueba 12345678 facturaPrueba salidaFacturaPrueba
     rfl (by decide) rfl (by decide)⟩

/-- C10: `generarXmlFactura` mutates its input record — whenever clave
generation succeeds, the caller's `factura.ambiente` afterwards holds the
validated ambiente, so a record whose ambiente is neither "1" nor "2" has
the field overwritten with "1" (a console warning is logged, but the call
does not fail and the input is not left unchanged). -/
theorem c10_mutacion_ambiente (ahora : Momento) (cod : Nat) (f : Factura)
    (hclave : ∃ k, generarClaveAcceso cod
      (parametrosClaveFactura f (resolverFechaEmision ahora f.fechaEmision).1
        (validarAmbiente f.ambiente).1) = .ok k) :
    ((generarXmlFactura ahora cod f).2).ambiente = (validarAmbiente f.ambiente).1 ∧
    (f.ambiente ≠ "1" → f.ambiente ≠ "2" →
      ((generarXmlFactura ahora cod f).2).ambiente = "1") := by
  obtain ⟨k, hk⟩ := hclave
  have hmut : ((generarXmlFactura ahora cod f).2).ambiente = (validarAmbiente f.ambiente).1 := by
    unfold generarXmlFactura
    rw [hk]
    dsimp only
    split
    · rfl
    · rfl
  refine ⟨hmut, fun h1 h2 => ?_⟩
  rw [hmut]
  unfold validarAmbiente
  rw [if_neg (by simp [h1, h2])]

set_option maxHeartbeats 1000000 in
/-- C10 witness: the theorem applied at a concrete invoice whose ambiente is
"X"; after the call the record carries ambiente "1". -/
theorem c10_mutacion_ambiente_witness :
    (∃ k, generarClaveAcceso 12345678
      (parametrosClaveFactura facturaAmbienteRaro
        (resolverFechaEmision ahoraPrueba facturaAmbienteRaro.fechaEmision).1
        (validarAmbiente facturaAmbienteRaro.ambiente).1) = .ok k) ∧
    (((generarXmlFactura ahoraPrueba 12345678 facturaAmbienteRaro).2).ambiente =
        (validarAmbiente facturaAmbienteRaro.ambiente).1 ∧
     (facturaAmbienteRaro.ambiente ≠ "1" → facturaAmbienteRaro.ambiente ≠ "2" →
       ((generarXmlFactura ahoraPrueba 12345678 facturaAmbienteRaro).2).ambiente = "1")) :=
  ⟨⟨_, rfl⟩,
   c10_mutacion_ambiente ahoraPrueba 12345678 facturaAmbienteRaro ⟨_, rfl⟩⟩

theorem bucleRecepcion_intentos (oracle : Nat → IntentoSoap RespuestaRecepcion)
    (max espera : Nat) :
    ∀ (restante hechos : Nat) (ultimo : String) (esperas : List Nat),
      (bucleRecepcion oracle max espera restante hechos ultimo esperas).2.intentos
        ≤ hechos + restante := by
  intro restante
  induction restante with
  | zero => intro hechos ultimo esperas; simp [bucleRecepcion]
  | succ n ih =>
    intro hechos ultimo esperas
    unfold bucleRecepcion
    dsimp only
    cases oracle (hechos + 1) with
    | falla m =>
      dsimp only
      split
      · simp
      · exact (ih (hechos + 1) m (esperas ++ [espera])).trans (by omega)
    | respuesta r =>
      dsimp only
      split
      next r2 heq => dsimp only; omega
      next m heq =>
        split
        · dsimp only; omega
        · exact (ih (hechos + 1) m (esperas ++ [espera])).trans (by omega)

theorem bucleRecepcion_esperas (oracle : Nat → IntentoSoap RespuestaRecepcion)
    (max espera : Nat) :
    ∀ (restante hechos : Nat) (ultimo : String) (esperas : List Nat),
      (∀ w ∈ esperas, w = espera) →
      ∀ w ∈ (bucleRecepcion oracle max espera restante hechos ultimo esperas).2.esperasMs,
        w = espera := by
  intro restante
  induction restante with
  | zero => intro hechos ultimo esperas hinv; simpa [bucleRecepcion] using hinv
  | succ n ih =>
    intro hechos ultimo esperas hinv
    unfold bucleRecepcion
    dsimp only
    have hinv2 : ∀ w ∈ esperas ++ [espera], w = espera := by
      intro w hw
      rcases List.mem_append.mp hw with h | h
      · exact hinv w h
      · simpa using List.mem_singleton.mp h
    cases oracle (hechos + 1) with
    | falla m =>
      dsimp only
      split
      · simpa using hinv
      · exact ih (hechos + 1) m (esperas ++ [espera]) hinv2
    | respuesta r =>
      dsimp only
      split
      next r2 heq => simpa using hinv
      next m heq =>
        split
        · simpa using hinv
        · exact ih (hechos + 1) m (esperas ++ [espera]) hinv2

theorem bucleRecepcion_agotado (oracle : Nat → IntentoSoap RespuestaRecepcion)
    (max espera : Nat) :
    ∀ (restante hechos : Nat) (ultimo : String) (esperas : List Nat) (n : Nat) (u : String),
      (bucleRecepcion oracle max espera restante hechos ultimo esperas).1
        = .error (.agotado n u) → n = max := by
  intro restante
  induction restante with
  | zero =>
    intro hechos ultimo esperas n u h
    simp only [bucleRecepcion] at h
    injection h with h2
    injection h2 with h3 h4
    exact h3.symm
  | succ k ih =>
    intro hechos ultimo esperas n u h
    unfold bucleRecepcion at h
    dsimp only at h
    cases horacle : oracle (hechos + 1) with
    | falla m =>
      rw [horacle] at h
      dsimp only at h
      split at h
      · injection h with h2
        injection h2 with h3 h4
        exact h3.symm
      · exact ih (hechos + 1) m (esperas ++ [espera]) n u h
    | respuesta r =>
      rw [horacle] at h
      dsimp only at h
      split at h
      next r2 heq => cases h
      next m heq =>
        split at h
        · injection h with h2
          injection h2 with h3 h4
          exact h3.symm
        · exact ih (hechos + 1) m (esperas ++ [espera]) n u h

theorem bucleAutorizacion_intentos (oracle : Nat → IntentoSoap RespuestaAutorizacion)
    (max espera : Nat) :
    ∀ (restante hechos : Nat) (ultimo : String) (esperas : List Nat),
      (bucleAutorizacion oracle max espera restante hechos ultimo esperas).2.intentos
        ≤ hechos + restante := by
  intro restante
  induction restante with
  | zero => intro hechos ultimo esperas; simp [bucleAutorizacion]
  | succ n ih =>
    intro hechos ultimo esperas
    unfold bucleAutorizacion
    dsimp only
    cases oracle (hechos + 1) with
    | falla m =>
      dsimp only
      split
      · dsimp only; omega
      · exact (ih (hechos + 1) m (esperas ++ [espera])).trans (by omega)
    | respuesta r =>
      dsimp only
      cases r.autorizaciones with
      | nil => dsimp only; omega
      | cons aut resto =>
        dsimp only
        split
        · exact (ih (hechos + 1) ultimo (esperas ++ [espera])).trans (by omega)
        · dsimp only; omega

theorem bucleAutorizacion_esperas (oracle : Nat → IntentoSoap RespuestaAutorizacion)
    (max espera : Nat) :
    ∀ (restante hechos : Nat) (ultimo : String) (esperas : List Nat),
      (∀ w ∈ esperas, w = espera) →
      ∀ w ∈ (bucleAutorizacion oracle max espera restante hechos ultimo esperas).2.esperasMs,
        w = espera := by
  intro restante
  induction restante with
  | zero => intro hechos ultimo esperas hinv; simpa [bucleAutorizacion] using hinv
  | succ n ih =>
    intro hechos ultimo esperas hinv
    unfold bucleAutorizacion
    dsimp only
    have hinv2 : ∀ w ∈ esperas ++ [espera], w = espera := by
      intro w hw
      rcases List.mem_append.mp hw with h | h
      · exact hinv w h
      · simpa using List.mem_singleton.mp h
    cases oracle (hechos + 1) with
    | falla m =>
      dsimp only
      split
      · simpa using hinv
      · exact ih (hechos + 1) m (esperas ++ [espera]) hinv2
    | respuesta r =>
      dsimp only
      cases r.autorizaciones with
      | nil => simpa using hinv
      | cons aut resto =>
        dsimp only
        split
        · exact ih (hechos + 1) ultimo (esperas ++ [espera]) hinv2
        · simpa using hinv

theorem bucleAutorizacion_agotado (oracle : Nat → IntentoSoap RespuestaAutorizacion)
    (max espera : Nat) :
    ∀ (restante hechos : Nat) (ultimo : String) (esperas : List Nat) (n : Nat) (u : String),
      (bucleAutorizacion oracle max espera restante hechos ultimo esperas).1
        = .error (.agotado n u) → n = max := by
  intro restante
  induction restante with
  | zero =>
    intro hechos ultimo esperas n u h
    simp only [bucleAutorizacion] at h
    injection h with h2
    injection h2 with h3 h4
    exact h3.symm
  | succ k ih =>
    intro hechos ultimo esperas n u h
    unfold bucleAutorizacion at h
    dsimp only at h
    cases horacle : oracle (hechos + 1) with
    | falla m =>
      rw [horacle] at h
      dsimp only at h
      split at h
      · injection h with h2
        injection h2 with h3 h4
        exact h3.symm
      · exact ih (hechos + 1) m (esperas ++ [espera]) n u h
    | respuesta r =>
      rw [horacle] at h
      dsimp only at h
      cases hauts : r.autorizaciones with
      | nil => rw [hauts] at h; dsimp only at h; cases h
      | cons aut resto =>
        rw [hauts] at h
        dsimp only at h
        split at h
        · exact ih (hechos + 1) ultimo (esperas ++ [espera]) n u h
        · cases h

theorem bucleAutorizacion_ok_oracle (oracle : Nat → IntentoSoap RespuestaAutorizacion)
    (max espera : Nat) :
    ∀ (restante hechos : Nat) (ultimo : String) (esperas : List Nat)
      (ra : RespuestaAutorizacion),
      (bucleAutorizacion oracle max espera restante hechos ultimo esperas).1 = .ok ra →
      ∃ n r, oracle n = .respuesta r := by
  intro restante
  induction restante with
  | zero => intro hechos ultimo esperas ra h; simp only [bucleAutorizacion] at h; cases h
  | succ k ih =>
    intro hechos ultimo esperas ra h
    unfold bucleAutorizacion at h
    dsimp only at h
    cases horacle : oracle (hechos + 1) with
    | falla m =>
      rw [horacle] at h
      dsimp only at h
      split at h
      · cases h
      · exact ih (hechos + 1) m (esperas ++ [espera]) ra h
    | respuesta r => exact ⟨hechos + 1, r, horacle⟩

theorem enviarComprobante_intentos_le (oracle : Nat → IntentoSoap RespuestaRecepcion)
    (ambiente : String) (max espera : Nat) :
    (enviarComprobante oracle ambiente max espera).2.intentos ≤ max := by
  unfold enviarComprobante
  split
  · simpa using bucleRecepcion_intentos oracle max espera max 0 "" []
  · simp

theorem enviarComprobante_esperas (oracle : Nat → IntentoSoap RespuestaRecepcion)
    (ambiente : String) (max espera : Nat) :
    ∀ w ∈ (enviarComprobante oracle ambiente max espera).2.esperasMs, w = espera := by
  unfold enviarComprobante
  split
  · exact bucleRecepcion_esperas oracle max espera max 0 "" [] (by simp)
  · simp

theorem enviarComprobante_agotado (oracle : Nat → IntentoSoap RespuestaRecepcion)
    (ambiente : String) (max espera : Nat) (n : Nat) (u : String)
    (h : (enviarComprobante oracle ambiente max espera).1 = .error (.agotado n u)) :
    n = max := by
  unfold enviarComprobante at h
  split at h
  · exact bucleRecepcion_agotado oracle max espera max 0 "" [] n u h
  · injection h with h2; cases h2

theorem consultarAutorizacion_intentos_le (oracle : Nat → IntentoSoap RespuestaAutorizacion)
    (clave ambiente : String) (max espera : Nat) :
    (consultarAutorizacion oracle clave ambiente max espera).2.intentos ≤ max := by
  unfold consultarAutorizacion
  split
  · split
    · simpa using bucleAutorizacion_intentos oracle max espera max 0 "" []
    · simp
  · simp

theorem consultarAutorizacion_esperas (oracle : Nat → IntentoSoap RespuestaAutorizacion)
    (clave ambiente : String) (max espera : Nat) :
    ∀ w ∈ (consultarAutorizacion oracle clave ambiente max espera).2.esperasMs, w = espera := by
  unfold consultarAutorizacion
  split
  · split
    · exact bucleAutorizacion_esperas oracle max espera max 0 "" [] (by simp)
    · simp
  · simp

theorem consultarAutorizacion_agotado (oracle : Nat → IntentoSoap RespuestaAutorizacion)
    (clave ambiente : String) (max espera : Nat) (n : Nat) (u : String)
    (h : (consultarAutorizacion oracle clave ambiente max espera).1
      = .error (.agotado n u)) :
    n = max := by
  unfold consultarAutorizacion at h
  split at h
  · split at h
    · exact bucleAutorizacion_agotado oracle max espera max 0 "" [] n u h
    · injection h with h2; cases h2
  · injection h with h2; cases h2

theorem procesar_traza_autorizacion (verificacion : Bool × String)
    (firma : Except String String) (recepcion : Nat → IntentoSoap RespuestaRecepcion)
    (autorizacion : Nat → IntentoSoap RespuestaAutorizacion)
    (fechaTs xmlContent ambiente : String) (maxReintentos esperaMs : Nat)
    (guardarXml : Bool) :
    ∀ t, (procesarComprobante verificacion firma recepcion autorizacion fechaTs
        xmlContent ambiente maxReintentos esperaMs guardarXml).trazaAutorizacion = some t →
      t.intentos ≤ maxReintentos := by
  intro t ht
  unfold procesarComprobante at ht
  split at ht
  · cases ht
  next clave hclave =>
    split at ht
    · cases ht
    · split at ht
      · cases ht
      next xmlSigned hfir =>
        dsimp only at ht
        split at ht
        · cases ht
        next r henv =>
          split at ht
          · cases ht
          · split at ht
            next e heqc =>
              injection ht with ht2
              rw [← ht2]
              exact consultarAutorizacion_intentos_le autorizacion clave ambiente
                maxReintentos esperaMs
            next ra heqra =>
              split at ht
              · injection ht with ht2
                rw [← ht2]
                exact consultarAutorizacion_intentos_le autorizacion clave ambiente
                  maxReintentos esperaMs
              · injection ht with ht2
                rw [← ht2]
                exact consultarAutorizacion_intentos_le autorizacion clave ambiente
                  maxReintentos esperaMs

/-- C5 counterexample: with the reception accepted on the first try and the
authorization transport failing on every attempt, `procesarComprobante` with
its default options drives `consultarAutorizacion` with maxReintentos = 3 —
the polling makes 3 attempts and the failure reports 3 attempts, not the
claimed fixed poll budget of 5. -/
theorem c5_reintentos_counterexample :
    (procesarComprobanteDefecto (true, "") (.ok "<xml/>") oracleRecepcionRecibida
        oracleAutorizacionCaida "20250807-100000" xmlPrueba "1").trazaAutorizacion
      = some { intentos := 3, esperasMs := [3000, 3000] } ∧
    (procesarComprobanteDefecto (true, "") (.ok "<xml/>") oracleRecepcionRecibida
        oracleAutorizacionCaida "20250807-100000" xmlPrueba "1").resultado.message
      = "Error en el proceso: " ++ mensajeConsultaAgotada 3 "ECONNREFUSED" ∧
    (3 : Nat) ≠ 5 :=
  ⟨rfl, rfl, by decide⟩

/-- C5 (amended): retries are bounded with fixed 3000 ms backoff —
`enviarComprobante` (default) makes at most 3 attempts, standalone
`consultarAutorizacion` (default) at most 5, each reporting its own
configured maximum when a transient error persists through every attempt;
but `procesarComprobante` drives `consultarAutorizacion` with its own
maxReintentos option (default 3), so orchestrated polling is bounded by 3
attempts, not 5. -/
theorem c5_reintentos_amended
    (rec : Nat → IntentoSoap RespuestaRecepcion)
    (aut : Nat → IntentoSoap RespuestaAutorizacion)
    (verificacion : Bool × String) (firma : Except String String)
    (fechaTs xmlContent ambiente clave : String) :
    (enviarComprobanteDefecto rec ambiente).2.intentos ≤ 3 ∧
    (∀ w ∈ (enviarComprobanteDefecto rec ambiente).2.esperasMs, w = 3000) ∧
    (∀ n u, (enviarComprobanteDefecto rec ambiente).1 = .error (.agotado n u) → n = 3) ∧
    (consultarAutorizacionDefecto aut clave ambiente).2.intentos ≤ 5 ∧
    (∀ w ∈ (consultarAutorizacionDefecto aut clave ambiente).2.esperasMs, w = 3000) ∧
    (∀ n u, (consultarAutorizacionDefecto aut clave ambiente).1
      = .error (.agotado n u) → n = 5) ∧
    (∀ t, (procesarComprobanteDefecto verificacion firma rec aut fechaTs xmlContent
        ambiente).trazaAutorizacion = some t → t.intentos ≤ 3) :=
  ⟨enviarComprobante_intentos_le rec ambiente 3 3000,
   enviarComprobante_esperas rec ambiente 3 3000,
   fun n u h => enviarComprobante_agotado rec ambiente 3 3000 n u h,
   consultarAutorizacion_intentos_le aut clave ambiente 5 3000,
   consultarAutorizacion_esperas aut clave ambiente 5 3000,
   fun n u h => consultarAutorizacion_agotado aut clave ambiente 5 3000 n u h,
   fun t ht => procesar_traza_autorizacion verificacion firma rec aut fechaTs
     xmlContent ambiente 3 3000 true t ht⟩

/-- C5 witness: the amended theorem applied to always-failing transports —
submit exhausts after exactly 3 attempts and standalone polling after
exactly 5, each reported in the thrown error. -/
theorem c5_reintentos_amended_witness :
    (enviarComprobanteDefecto oracleRecepcionCaida "1").1
      = .error (.agotado 3 "ECONNREFUSED") ∧
    ((enviarComprobanteDefecto oracleRecepcionCaida "1").1
      = .error (.agotado 3 "ECONNREFUSED") → (3 : Nat) = 3) ∧
    (consultarAutorizacionDefecto oracleAutorizacionCaida clavePrueba "1").1
      = .error (.agotado 5 "ECONNREFUSED") ∧
    ((consultarAutorizacionDefecto oracleAutorizacionCaida clavePrueba "1").1
      = .error (.agotado 5 "ECONNREFUSED") → (5 : Nat) = 5) :=
  ⟨rfl,
   fun h => (c5_reintentos_amended oracleRecepcionCaida oracleAutorizacionCaida
     (true, "") (.ok "<xml/>") "20250807-100000" xmlPrueba "1" clavePrueba).2.2.1
     3 "ECONNREFUSED" h,
   rfl,
   fun h => (c5_reintentos_amended oracleRecepcionCaida oracleAutorizacionCaida
     (true, "") (.ok "<xml/>") "20250807-100000" xmlPrueba "1" clavePrueba).2.2.2.2.2.1
     5 "ECONNREFUSED" h⟩

/-- C6: when the reception service answers submit with any estado other than
RECIBIDA (e.g. DEVUELTA), `procesarComprobante` returns a result object —
it is a total function, no exception reaches the caller — with
success = false and stage "recepcion", and persists the signed XML under
`comprobantes/rechazado/`. -/
theorem c6_devuelta_rechazado
    (verificacion : Bool × String) (firma : Except String String)
    (recepcion : Nat → IntentoSoap RespuestaRecepcion)
    (autorizacion : Nat → IntentoSoap RespuestaAutorizacion)
    (fechaTs xmlContent ambiente clave xmlSigned : String)
    (maxReintentos esperaMs : Nat) (r : RespuestaRecepcion)
    (hclave : extraerClaveAcceso xmlContent = some clave)
    (hverif : verificacion.1 = true)
    (hfirma : firma = .ok xmlSigned)
    (henvio : (enviarComprobante recepcion ambiente maxReintentos esperaMs).1 = .ok r)
    (hestado : r.estado ≠ "RECIBIDA") :
    (procesarComprobante verificacion firma recepcion autorizacion fechaTs xmlContent
        ambiente maxReintentos esperaMs true).resultado.success = false ∧
    (procesarComprobante verificacion firma recepcion autorizacion fechaTs xmlContent
        ambiente maxReintentos esperaMs true).resultado.stage = "recepcion" ∧
    { ruta := rutaGuardado "RECHAZADO" clave fechaTs, contenido := xmlSigned } ∈
      (procesarComprobante verificacion firma recepcion autorizacion fechaTs xmlContent
        ambiente maxReintentos esperaMs true).guardados ∧
    rutaGuardado "RECHAZADO" clave fechaTs =
      "comprobantes/rechazado/" ++ clave ++ "_" ++ fechaTs ++ ".xml" := by
  have hb : (r.estado != "RECIBIDA") = true := bne_iff_ne.mpr hestado
  unfold procesarComprobante
  rw [hclave]
  dsimp only
  rw [hverif, hfirma]
  dsimp only
  rw [henvio]
  dsimp only
  rw [hb]
  refine ⟨rfl, rfl, ?_, rfl⟩
  simp

/-- C6 witness: scenario S5 — the reception service answers DEVUELTA with
message 43 "CLAVE ACCESO REGISTRADA"; the run returns success = false with
stage "recepcion" and writes the signed XML under comprobantes/rechazado/,
throwing nothing. -/
theorem c6_devuelta_rechazado_witness :
    extraerClaveAcceso xmlPrueba = some clavePrueba ∧
    (enviarComprobante oracleRecepcionDevuelta "1" 3 3000).1
      = .ok { estado := "DEVUELTA"
              mensajes := [{ identificador := "43", mensaje := "CLAVE ACCESO REGISTRADA"
                             informacionAdicional := "" }] } ∧
    ((procesarComprobante (true, "") (.ok "<factura firmada/>") oracleRecepcionDevuelta
        oracleAutorizacionCaida "20250807-100000" xmlPrueba "1" 3 3000
        true).resultado.success = false ∧
     (procesarComprobante (true, "") (.ok "<factura firmada/>") oracleRecepcionDevuelta
        oracleAutorizacionCaida "20250807-100000" xmlPrueba "1" 3 3000
        true).resultado.stage = "recepcion" ∧
     { ruta := rutaGuardado "RECHAZADO" clavePrueba "20250807-100000",
       contenido := "<factura firmada/>" } ∈
       (procesarComprobante (true, "") (.ok "<factura firmada/>") oracleRecepcionDevuelta
         oracleAutorizacionCaida "20250807-100000" xmlPrueba "1" 3 3000 true).guardados ∧
     rutaGuardado "RECHAZADO" clavePrueba "20250807-100000" =
       "comprobantes/rechazado/" ++ clavePrueba ++ "_" ++ "20250807-100000" ++ ".xml") :=
  ⟨rfl, rfl,
   c6_devuelta_rechazado (true, "") (.ok "<factura firmada/>") oracleRecepcionDevuelta
     oracleAutorizacionCaida "20250807-100000" xmlPrueba "1" clavePrueba
     "<factura firmada/>" 3 3000
     { estado := "DEVUELTA"
       mensajes := [{ identificador := "43", mensaje := "CLAVE ACCESO REGISTRADA"
                      informacionAdicional := "" }] }
     rfl rfl rfl rfl (by decide)⟩

/-- C9: `verificarEstadoComprobante` is total at its interface — it returns
a result object for every input, its success and encontrado flags always
agree (so "comprobante not found" and "query failed" are indistinguishable
through the encontrado flag alone), and an invalid ambiente, a malformed
clave (length other than 49) and a transport failure on every attempt all
yield success = false and encontrado = false instead of an exception. -/
theorem c9_verificar_total (oracle : Nat → IntentoSoap RespuestaAutorizacion)
    (clave ambiente : String) :
    (verificarEstadoComprobante oracle clave ambiente).success
      = (verificarEstadoComprobante oracle clave ambiente).encontrado ∧
    (ambiente ≠ "1" → ambiente ≠ "2" →
      (verificarEstadoComprobante oracle clave ambiente).success = false ∧
      (verificarEstadoComprobante oracle clave ambiente).encontrado = false) ∧
    (clave.length ≠ 49 →
      (verificarEstadoComprobante oracle clave ambiente).success = false ∧
      (verificarEstadoComprobante oracle clave ambiente).encontrado = false) ∧
    ((∀ n, ∃ m, oracle n = .falla m) →
      (verificarEstadoComprobante oracle clave ambiente).success = false ∧
      (verificarEstadoComprobante oracle clave ambiente).encontrado = false) := by
  refine ⟨?_, ?_, ?_, ?_⟩
  · unfold verificarEstadoComprobante
    split
    · rfl
    · split <;> rfl
  · intro h1 h2
    have hamb : ¬(ambiente = "1" ∨ ambiente = "2") := by
      rintro (h | h)
      · exact h1 h
      · exact h2 h
    unfold verificarEstadoComprobante consultarAutorizacion
    rw [if_neg hamb]
    exact ⟨rfl, rfl⟩
  · intro hlen
    unfold verificarEstadoComprobante consultarAutorizacion
    by_cases hamb : ambiente = "1" ∨ ambiente = "2"
    · rw [if_pos hamb, if_neg hlen]
      exact ⟨rfl, rfl⟩
    · rw [if_neg hamb]
      exact ⟨rfl, rfl⟩
  · intro hfallas
    cases hc : (consultarAutorizacion oracle clave ambiente 2 2000).1 with
    | error e =>
      unfold verificarEstadoComprobante
      rw [hc]
      exact ⟨rfl, rfl⟩
    | ok ra =>
      exfalso
      unfold consultarAutorizacion at hc
      split at hc
      · split at hc
        · obtain ⟨n, r, hr⟩ := bucleAutorizacion_ok_oracle oracle 2 2000 2 0 "" [] ra hc
          obtain ⟨m, hm⟩ := hfallas n
          rw [hm] at hr
          cases hr
        · cases hc
      · cases hc

/-- C9 witness: the theorem applied at a malformed 3-character clave with a
dead transport — the query reports success = false and encontrado = false. -/
theorem c9_verificar_total_witness :
    (("123" : String).length ≠ 49) ∧
    ((verificarEstadoComprobante oracleAutorizacionCaida "123" "1").success = false ∧
     (verificarEstadoComprobante oracleAutorizacionCaida "123" "1").encontrado = false) :=
  ⟨by decide, (c9_verificar_total oracleAutorizacionCaida "123" "1").2.2.1 (by decide)⟩
